import Mathlib

/-!
Verification of the `ioutils/maxstdio` shim (`maxstdio.c` / `maxstdio.h`).

The shim is two C functions, `CGetMaxSTDIO` and `CSetMaxSTDIO`, each a direct
delegation to the Windows CRT primitives `_getmaxstdio` / `_setmaxstdio`.
The process-wide maximum-open-streams counter is the only state.  Machine
`int` values are embedded as `Int`: every value flowing through the shim is
returned unmodified, so no arithmetic (hence no overflow) occurs anywhere in
the code and `Int` is a faithful carrier for the C `int` values.

Naming note: Lean identifiers here drop the all-caps `IO` suffix of the C
symbols (`CGetMaxStdio` embeds `CGetMaxSTDIO`, `CSetMaxStdio` embeds
`CSetMaxSTDIO`); everything else keeps the source's names.
-/

namespace Maxstdio

/-- The process-wide state visible to this code: the CRT's per-process
maximum-open-streams counter, a C `int` embedded as `Int`. -/
structure ProcState where
  maxstdio : Int
deriving DecidableEq, Repr

/-- Modelled from the spec: the Windows CRT primitive `_getmaxstdio` is not
under src/ (only its caller `CGetMaxSTDIO` is).  Per the spec it "returns the
process's current ceiling on simultaneously open stream handles" and has no
side effect on the counter. -/
def getmaxstdio (s : ProcState) : Int × ProcState :=
  (s.maxstdio, s)

/-- Modelled from the spec: the Windows CRT primitive `_setmaxstdio` is not
under src/ (only its caller `CSetMaxSTDIO` is).  Per the spec it "installs
`newMax` as the new ceiling and returns the ceiling that was in effect
immediately beforehand". -/
def setmaxstdio (new_max : Int) (s : ProcState) : Int × ProcState :=
  (s.maxstdio, ProcState.mk new_max)

/-- Embeds `CGetMaxSTDIO` (maxstdio.c lines 6-8): the body is the single
statement `return _getmaxstdio();`. -/
def CGetMaxStdio (s : ProcState) : Int × ProcState :=
  getmaxstdio s

/-- Embeds `CSetMaxSTDIO` (maxstdio.c lines 13-15): the body is the single
statement `return _setmaxstdio(new_max);`. -/
def CSetMaxStdio (new_max : Int) (s : ProcState) : Int × ProcState :=
  setmaxstdio new_max s

/-! ### Traced semantics

To state temporal claims about how many primitive calls a wrapper makes, the
same code is embedded once more with a ghost event log: each primitive
records its own invocation, and the wrappers are, as in the source, a single
delegation to the primitive. -/

/-- One invocation of a CRT primitive, recorded in the ghost log. -/
inductive PrimCall where
  | getCall : PrimCall
  | setCall : Int → PrimCall
deriving DecidableEq, Repr

/-- Process state together with the ghost log of primitive invocations. -/
structure TracedState where
  maxstdio : Int
  calls : List PrimCall
deriving DecidableEq, Repr

/-- Modelled from the spec: `_getmaxstdio`, instrumented to log its own
invocation.  Same counter semantics as `getmaxstdio`. -/
def getmaxstdioT (s : TracedState) : Int × TracedState :=
  (s.maxstdio, TracedState.mk s.maxstdio (s.calls ++ [PrimCall.getCall]))

/-- Modelled from the spec: `_setmaxstdio`, instrumented to log its own
invocation.  Same counter semantics as `setmaxstdio`. -/
def setmaxstdioT (new_max : Int) (s : TracedState) : Int × TracedState :=
  (s.maxstdio, TracedState.mk new_max (s.calls ++ [PrimCall.setCall new_max]))

/-- Embeds `CGetMaxSTDIO` under the traced semantics: the body is the single
delegation `return _getmaxstdio();`, so the wrapper itself logs nothing. -/
def CGetMaxStdioT (s : TracedState) : Int × TracedState :=
  getmaxstdioT s

/-- Embeds `CSetMaxSTDIO` under the traced semantics: the body is the single
delegation `return _setmaxstdio(new_max);`, so the wrapper itself logs
nothing. -/
def CSetMaxStdioT (new_max : Int) (s : TracedState) : Int × TracedState :=
  setmaxstdioT new_max s

/-! ### Platform boundary

The spec ships the shim behind a foreign-call boundary (`GetMaxOpenFiles`,
`SetMaxOpenFiles`) that exists only on the Windows platform family. -/

/-- The platform families the spec distinguishes. -/
inductive TargetPlatform where
  | windows : TargetPlatform
  | nonWindows : TargetPlatform
deriving DecidableEq, Repr

/-- Modelled from the spec: the `GetMaxOpenFiles` entry point of the
foreign-call boundary is not under src/ (only the C shim it wraps is).  Per
the spec it maps directly onto `CGetMaxSTDIO` on Windows, and on any other
platform it fails with an explicit "unsupported platform" condition rather
than silently returning a stubbed integer. -/
def GetMaxOpenFiles (p : TargetPlatform) (s : ProcState) :
    Except String (Int × ProcState) :=
  match p with
  | TargetPlatform.windows => Except.ok (CGetMaxStdio s)
  | TargetPlatform.nonWindows => Except.error "unsupported platform"

/-- Modelled from the spec: the `SetMaxOpenFiles` entry point of the
foreign-call boundary is not under src/ (only the C shim it wraps is).  Per
the spec it maps directly onto `CSetMaxSTDIO` on Windows, and on any other
platform it fails with an explicit "unsupported platform" condition rather
than silently returning a stubbed integer. -/
def SetMaxOpenFiles (p : TargetPlatform) (newMax : Int) (s : ProcState) :
    Except String (Int × ProcState) :=
  match p with
  | TargetPlatform.windows => Except.ok (CSetMaxStdio newMax s)
  | TargetPlatform.nonWindows => Except.error "unsupported platform"

end Maxstdio

namespace Maxstdio

/-- C1: for every process state and every argument, the value returned by
`CSetMaxSTDIO new_max` equals the value `CGetMaxSTDIO` would have returned
on the state in effect immediately before the call. -/
theorem set_returns_previous_get (new_max : Int) (s : ProcState) :
    (CSetMaxStdio new_max s).1 = (CGetMaxStdio s).1 := rfl

/-- C2: after `CSetMaxSTDIO n` succeeds, with no other mutation in between,
`CGetMaxSTDIO` on the resulting state returns exactly `n`: the set-then-get
round trip observes the value that was set. -/
theorem set_then_get_roundtrip (n : Int) (s : ProcState) :
    (CGetMaxStdio (CSetMaxStdio n s).2).1 = n := rfl

/-- C3: both wrappers are verbatim pass-throughs: on every state, the result
of `CGetMaxSTDIO` (value and state) is exactly the result of `_getmaxstdio`,
and the result of `CSetMaxSTDIO new_max` is exactly the result of
`_setmaxstdio new_max`, with no translation, validation, or substitution. -/
theorem wrappers_pass_through (new_max : Int) (s : ProcState) :
    CGetMaxStdio s = getmaxstdio s ∧
    CSetMaxStdio new_max s = setmaxstdio new_max s :=
  ⟨rfl, rfl⟩

/-- C4: `CGetMaxSTDIO` has no observable side effect: it leaves the state
(hence the counter) unchanged, so two consecutive calls with no intervening
setter return the same value, and among the two operations only
`CSetMaxSTDIO` can change the counter (a state whose counter changed must
have come from `CSetMaxStdio` with a different argument). -/
theorem get_no_side_effects (s : ProcState) :
    (CGetMaxStdio s).2 = s ∧
    (CGetMaxStdio (CGetMaxStdio s).2).1 = (CGetMaxStdio s).1 ∧
    (∀ n : Int, (CSetMaxStdio n s).2.maxstdio ≠ s.maxstdio → n ≠ s.maxstdio) :=
  ⟨rfl, rfl, fun n h => by
    intro hn
    exact h (by simpa [CSetMaxStdio, setmaxstdio] using hn)⟩

/-- C5: `CSetMaxSTDIO` passes every signed-integer argument through to
`_setmaxstdio` unchecked: for every `new_max`, including zero and negative
values, the wrapper's whole result is the primitive's result at that very
argument, so the wrapper performs no bounds checking, clamping, or
rejection. -/
theorem set_passes_argument_unchecked (new_max : Int) (s : ProcState) :
    CSetMaxStdio new_max s = setmaxstdio new_max s ∧
    (CSetMaxStdio new_max s).2.maxstdio = new_max :=
  ⟨rfl, rfl⟩

/-- C6: `CGetMaxSTDIO` distinguishes no error conditions: its return type is
a bare integer (no separate error channel in `Int × ProcState`), and even
when the counter holds a zero or negative value the wrapper returns that
value unvalidated. -/
theorem get_no_error_channel (s : ProcState) (h : s.maxstdio ≤ 0) :
    (CGetMaxStdio s).1 = s.maxstdio := rfl

/-- Witness for C6 at the concrete state whose counter is `-1`. -/
theorem get_no_error_channel_witness :
    (ProcState.mk (-1)).maxstdio ≤ 0 ∧
      (CGetMaxStdio (ProcState.mk (-1))).1 = (ProcState.mk (-1)).maxstdio :=
  ⟨by decide, get_no_error_channel (ProcState.mk (-1)) (by decide)⟩

/-- C7: each wrapper call is a stateless single-step delegation: under the
traced semantics it appends exactly one primitive-invocation event to the
ghost log (the matching primitive, called exactly once), and its counter
transition and return value are exactly the primitive's own, so nothing
happens before or after the single primitive call. -/
theorem wrappers_single_delegation (new_max : Int) (s : TracedState) :
    (CGetMaxStdioT s).2.calls = s.calls ++ [PrimCall.getCall] ∧
    (CSetMaxStdioT new_max s).2.calls = s.calls ++ [PrimCall.setCall new_max] ∧
    CGetMaxStdioT s = getmaxstdioT s ∧
    CSetMaxStdioT new_max s = setmaxstdioT new_max s :=
  ⟨rfl, rfl, rfl, rfl⟩

/-- C8: on a non-Windows platform, both `GetMaxOpenFiles` and
`SetMaxOpenFiles` fail with the explicit "unsupported platform" condition;
in particular neither ever returns an integer there, so no silent wrong or
stubbed value is possible. -/
theorem non_windows_unsupported (p : TargetPlatform) (s : ProcState)
    (n : Int) (h : p ≠ TargetPlatform.windows) :
    GetMaxOpenFiles p s = Except.error "unsupported platform" ∧
    SetMaxOpenFiles p n s = Except.error "unsupported platform" := by
  cases p with
  | windows => exact absurd rfl h
  | nonWindows => exact ⟨rfl, rfl⟩

/-- Witness for C8 at the concrete non-Windows platform and counter 512. -/
theorem non_windows_unsupported_witness :
    TargetPlatform.nonWindows ≠ TargetPlatform.windows ∧
      (GetMaxOpenFiles TargetPlatform.nonWindows (ProcState.mk 512) =
          Except.error "unsupported platform" ∧
        SetMaxOpenFiles TargetPlatform.nonWindows 2048 (ProcState.mk 512) =
          Except.error "unsupported platform") :=
  ⟨by decide,
    non_windows_unsupported TargetPlatform.nonWindows (ProcState.mk 512) 2048
      (by decide)⟩

/-- C9: both operations are deterministic and depend only on the counter and
the argument: two runs started in traced states with equal counters (the
ghost logs, i.e. the call histories, may differ arbitrarily) return the same
value and leave the same successor counter, for the getter and, at any fixed
argument, for the setter. -/
theorem operations_deterministic (s t : TracedState) (n : Int)
    (h : s.maxstdio = t.maxstdio) :
    (CGetMaxStdioT s).1 = (CGetMaxStdioT t).1 ∧
    (CGetMaxStdioT s).2.maxstdio = (CGetMaxStdioT t).2.maxstdio ∧
    (CSetMaxStdioT n s).1 = (CSetMaxStdioT n t).1 ∧
    (CSetMaxStdioT n s).2.maxstdio = (CSetMaxStdioT n t).2.maxstdio := by
  refine ⟨?_, ?_, ?_, ?_⟩ <;>
    simp [CGetMaxStdioT, getmaxstdioT, CSetMaxStdioT, setmaxstdioT, h]

/-- Witness for C9 at two concrete states with equal counters but different
call histories. -/
theorem operations_deterministic_witness :
    (TracedState.mk 512 []).maxstdio =
        (TracedState.mk 512 [PrimCall.getCall]).maxstdio ∧
      ((CGetMaxStdioT (TracedState.mk 512 [])).1 =
          (CGetMaxStdioT (TracedState.mk 512 [PrimCall.getCall])).1 ∧
        (CGetMaxStdioT (TracedState.mk 512 [])).2.maxstdio =
          (CGetMaxStdioT (TracedState.mk 512 [PrimCall.getCall])).2.maxstdio ∧
        (CSetMaxStdioT 2048 (TracedState.mk 512 [])).1 =
          (CSetMaxStdioT 2048 (TracedState.mk 512 [PrimCall.getCall])).1 ∧
        (CSetMaxStdioT 2048 (TracedState.mk 512 [])).2.maxstdio =
          (CSetMaxStdioT 2048
              (TracedState.mk 512 [PrimCall.getCall])).2.maxstdio) :=
  ⟨by decide,
    operations_deterministic (TracedState.mk 512 [])
      (TracedState.mk 512 [PrimCall.getCall]) 2048 (by decide)⟩

/-- C10: both operations terminate on every input: each is straight-line
code evaluating, on every state and every signed-integer argument, to the
explicit closed-form result below, so both are total functions that always
return. -/
theorem operations_total (new_max : Int) (s : ProcState) :
    CGetMaxStdio s = (s.maxstdio, s) ∧
    CSetMaxStdio new_max s = (s.maxstdio, ProcState.mk new_max) :=
  ⟨rfl, rfl⟩

end Maxstdio
